import Mathlib

/-!
Verification of the pyTenable core layer (session, validator, paginated
iterator) against its design specification.  The Python sources in
`tenable/base.py` and `tenable/tenable_io/base.py` are shallowly embedded:
Python values are modelled by an explicit `PyVal` type, Python exceptions by
explicit result constructors, and the in-place mutation performed by
`APIEndpoint._check` on a caller-supplied list of expected types is modelled
by returning the final state of that list alongside the result.  The
embedding follows Python 3 semantics (the `unicode` compatibility branch in
`_check` raises `NameError` and is swallowed, leaving no trace).
-/

namespace Tenable

/-! ## Python value model -/

/-- The Python types that occur in the validator's reachable inputs. -/
inductive PyType where
  | noneT
  | boolT
  | intT
  | floatT
  | strT
  | listT
deriving DecidableEq, Repr

/-- A Python value, as far as the core layer inspects one.  Floats are
modelled as exact fractions (numerator and denominator): the code never
computes with them, it only stores them, tests their truthiness and
compares them. -/
inductive PyVal where
  | none
  | bool (b : Bool)
  | int (n : Int)
  | float (num : Int) (den : Nat)
  | str (s : String)
  | list (l : List PyVal)

mutual

/-- Structural decidable equality for `PyVal` (the derive handler does not
support nested inductives). -/
def pyValDecEq : (a b : PyVal) → Decidable (a = b)
  | .none, .none => isTrue rfl
  | .bool a, .bool b =>
    match decEq a b with
    | isTrue h => isTrue (by rw [h])
    | isFalse h => isFalse (by intro hh; injection hh with h1; exact h h1)
  | .int a, .int b =>
    match decEq a b with
    | isTrue h => isTrue (by rw [h])
    | isFalse h => isFalse (by intro hh; injection hh with h1; exact h h1)
  | .float a b, .float c d =>
    match decEq a c, decEq b d with
    | isTrue h1, isTrue h2 => isTrue (by rw [h1, h2])
    | isFalse h1, _ => isFalse (by intro hh; injection hh with x y; exact h1 x)
    | isTrue _, isFalse h2 => isFalse (by intro hh; injection hh with x y; exact h2 y)
  | .str a, .str b =>
    match decEq a b with
    | isTrue h => isTrue (by rw [h])
    | isFalse h => isFalse (by intro hh; injection hh with h1; exact h h1)
  | .list a, .list b =>
    match pyValDecEqList a b with
    | isTrue h => isTrue (by rw [h])
    | isFalse h => isFalse (by intro hh; injection hh with h1; exact h h1)
  | .none, .bool _ => isFalse (fun h => PyVal.noConfusion h)
  | .none, .int _ => isFalse (fun h => PyVal.noConfusion h)
  | .none, .float _ _ => isFalse (fun h => PyVal.noConfusion h)
  | .none, .str _ => isFalse (fun h => PyVal.noConfusion h)
  | .none, .list _ => isFalse (fun h => PyVal.noConfusion h)
  | .bool _, .none => isFalse (fun h => PyVal.noConfusion h)
  | .bool _, .int _ => isFalse (fun h => PyVal.noConfusion h)
  | .bool _, .float _ _ => isFalse (fun h => PyVal.noConfusion h)
  | .bool _, .str _ => isFalse (fun h => PyVal.noConfusion h)
  | .bool _, .list _ => isFalse (fun h => PyVal.noConfusion h)
  | .int _, .none => isFalse (fun h => PyVal.noConfusion h)
  | .int _, .bool _ => isFalse (fun h => PyVal.noConfusion h)
  | .int _, .float _ _ => isFalse (fun h => PyVal.noConfusion h)
  | .int _, .str _ => isFalse (fun h => PyVal.noConfusion h)
  | .int _, .list _ => isFalse (fun h => PyVal.noConfusion h)
  | .float _ _, .none => isFalse (fun h => PyVal.noConfusion h)
  | .float _ _, .bool _ => isFalse (fun h => PyVal.noConfusion h)
  | .float _ _, .int _ => isFalse (fun h => PyVal.noConfusion h)
  | .float _ _, .str _ => isFalse (fun h => PyVal.noConfusion h)
  | .float _ _, .list _ => isFalse (fun h => PyVal.noConfusion h)
  | .str _, .none => isFalse (fun h => PyVal.noConfusion h)
  | .str _, .bool _ => isFalse (fun h => PyVal.noConfusion h)
  | .str _, .int _ => isFalse (fun h => PyVal.noConfusion h)
  | .str _, .float _ _ => isFalse (fun h => PyVal.noConfusion h)
  | .str _, .list _ => isFalse (fun h => PyVal.noConfusion h)
  | .list _, .none => isFalse (fun h => PyVal.noConfusion h)
  | .list _, .bool _ => isFalse (fun h => PyVal.noConfusion h)
  | .list _, .int _ => isFalse (fun h => PyVal.noConfusion h)
  | .list _, .float _ _ => isFalse (fun h => PyVal.noConfusion h)
  | .list _, .str _ => isFalse (fun h => PyVal.noConfusion h)

/-- Decidable equality for lists of `PyVal`. -/
def pyValDecEqList : (a b : List PyVal) → Decidable (a = b)
  | [], [] => isTrue rfl
  | [], _ :: _ => isFalse (fun h => List.noConfusion h)
  | _ :: _, [] => isFalse (fun h => List.noConfusion h)
  | x :: xs, y :: ys =>
    match pyValDecEq x y, pyValDecEqList xs ys with
    | isTrue h1, isTrue h2 => isTrue (by rw [h1, h2])
    | isFalse h1, _ => isFalse (by intro hh; injection hh with a b; exact h1 a)
    | isTrue _, isFalse h2 => isFalse (by intro hh; injection hh with a b; exact h2 b)

end

instance : DecidableEq PyVal := pyValDecEq

/-- `type(v)` for a `PyVal`. -/
def PyVal.typeOf : PyVal → PyType
  | .none => .noneT
  | .bool _ => .boolT
  | .int _ => .intT
  | .float _ _ => .floatT
  | .str _ => .strT
  | .list _ => .listT

/-- `type(v).__name__`. -/
def PyType.pyName : PyType → String
  | .noneT => "NoneType"
  | .boolT => "bool"
  | .intT => "int"
  | .floatT => "float"
  | .strT => "str"
  | .listT => "list"

/-- Python truthiness (`bool(v)`). -/
def PyVal.truthy : PyVal → Bool
  | .none => false
  | .bool b => b
  | .int n => decide (n ≠ 0)
  | .float m _ => decide (m ≠ 0)
  | .str s => decide (s ≠ "")
  | .list l => !l.isEmpty

/-- Numeric view used by Python `==`: `bool`, `int` and `float` compare by
exact numeric value (`True == 1`, `1 == 1.0`), here as a fraction. -/
def pyNum : PyVal → Option (Int × Int)
  | .bool b => some (if b then 1 else 0, 1)
  | .int n => some (n, 1)
  | .float m d => some (m, (d : Int))
  | _ => Option.none

mutual

/-- Python `==` on the modelled values. -/
def pyEq : PyVal → PyVal → Bool
  | .list a, .list b => pyEqList a b
  | a, b =>
    match pyNum a, pyNum b with
    | some x, some y => decide (x.1 * y.2 = y.1 * x.2)
    | _, _ =>
      match a, b with
      | .none, .none => true
      | .str s, .str t => decide (s = t)
      | _, _ => false

/-- Elementwise `==` on Python lists. -/
def pyEqList : List PyVal → List PyVal → Bool
  | [], [] => true
  | x :: xs, y :: ys => pyEq x y && pyEqList xs ys
  | _, _ => false

end

/-- Python membership `v in l` (a list `l`). -/
def pyIn (v : PyVal) (l : List PyVal) : Bool :=
  l.any (fun w => pyEq v w)

mutual

/-- Python `repr(v)`, used when a value is interpolated into an error
message.  Quotes around string reprs are written via their code point to
keep the file free of literal quote characters. -/
def pyRepr : PyVal → String
  | .none => "None"
  | .bool b => if b then "True" else "False"
  | .int n => toString n
  | .float m d => toString m ++ "/" ++ toString d
  | .str s => String.singleton (Char.ofNat 39) ++ s ++ String.singleton (Char.ofNat 39)
  | .list l => "[" ++ String.intercalate ", " (pyReprList l) ++ "]"

/-- `repr` of each element of a list. -/
def pyReprList : List PyVal → List String
  | [] => []
  | v :: vs => pyRepr v :: pyReprList vs

end

/-- Python `str(v)`. -/
def pyStr : PyVal → String
  | .str s => s
  | v => pyRepr v

/-! ## The validator: `APIEndpoint._check` (tenable/base.py lines 102-236)

The `expected_type` argument may be a Python type object or one of the two
sentinel strings `uuid` / `scanner-uuid`, or a list of such entries. -/

/-- One entry of the validator's `expected_type` argument. -/
inductive EType where
  | ty (t : PyType)
  | uuidStr
  | scannerUuidStr
deriving DecidableEq, Repr

/-- The `expected_type` argument itself: a single entry or a Python list of
entries.  A nonempty list is aliased by the local `etypes` variable, so
in-place updates of `etypes` are visible to the caller. -/
inductive Expected where
  | single (e : EType)
  | listed (l : List EType)
deriving DecidableEq, Repr

/-- `isinstance(v, t)` for a type object `t`.  Python's `bool` is a subclass
of `int`. -/
def pyIsInstance (v : PyVal) (t : PyType) : Bool :=
  decide (v.typeOf = t) || (decide (v.typeOf = PyType.boolT) && decide (t = PyType.intT))

/-- The two regular-expression literals the validator installs for the
sentinel types. -/
inductive RePattern where
  | uuid
  | scannerUuid
deriving DecidableEq, Repr

/-- The literal text of the pattern, as interpolated into error messages. -/
def RePattern.literal : RePattern → String
  | .uuid =>
      "[a-fA-F0-9]\x7b8\x7d-[a-fA-F0-9]\x7b4\x7d-[a-fA-F0-9]\x7b4\x7d-[a-fA-F0-9]\x7b4\x7d-[a-fA-F0-9]\x7b12\x7d"
  | .scannerUuid =>
      "[a-fA-F0-9]\x7b8\x7d-[a-fA-F0-9]\x7b4\x7d-[a-fA-F0-9]\x7b4\x7d-[a-fA-F0-9]\x7b4\x7d-[a-fA-F0-9]\x7b12,32\x7d"

/-- `[a-fA-F0-9]` as a character predicate. -/
def isHexDigit (c : Char) : Bool :=
  (decide (Char.ofNat 48 ≤ c) && decide (c ≤ Char.ofNat 57)) ||
  (decide (Char.ofNat 97 ≤ c) && decide (c ≤ Char.ofNat 102)) ||
  (decide (Char.ofNat 65 ≤ c) && decide (c ≤ Char.ofNat 70))

/-- Consume exactly `n` hex digits, returning the remainder. -/
def matchHexGroup : Nat → List Char → Option (List Char)
  | 0, cs => some cs
  | _ + 1, [] => Option.none
  | n + 1, c :: cs => if isHexDigit c then matchHexGroup n cs else Option.none

/-- Consume a single hyphen. -/
def matchDash : List Char → Option (List Char)
  | [] => Option.none
  | c :: cs => if c = Char.ofNat 45 then some cs else Option.none

/-- Length of the maximal run of leading hex digits. -/
def hexRun : List Char → Nat
  | [] => 0
  | c :: cs => if isHexDigit c then hexRun cs + 1 else 0

/-- Whether the hyphenated pattern `hex(8)-hex(4)-hex(4)-hex(4)-hex(n)`
matches starting at the head of `cs`.  For the final counted group the
regex quantifiers in the source are an exact count of 12 and a range 12-32
respectively; since neither pattern is anchored, a match starting here
exists exactly when at least `lastMin = 12` hex digits follow the fourth
hyphen (the upper bound only limits the extent of the match). -/
def uuidMatchAt (lastMin : Nat) (cs : List Char) : Bool :=
  match (((((((matchHexGroup 8 cs).bind matchDash).bind
      (matchHexGroup 4)).bind matchDash).bind
      (matchHexGroup 4)).bind matchDash).bind
      (matchHexGroup 4)).bind matchDash with
  | some rest => decide (lastMin ≤ hexRun rest)
  | Option.none => false

/-- Whether a match starts at any position of the string, which is exactly
when `re.findall` returns a nonempty list. -/
def scanUuid (lastMin : Nat) : List Char → Bool
  | [] => false
  | c :: cs => uuidMatchAt lastMin (c :: cs) || scanUuid lastMin cs

/-- `len(re.findall(pattern, s)) > 0` for the two installed patterns. -/
def RePattern.hasMatch : RePattern → String → Bool
  | .uuid, s => scanUuid 12 s.data
  | .scannerUuid, s => scanUuid 12 s.data

/-- `str.lower()`, restricted to ASCII case mapping (the inputs the library
validates are ASCII). -/
def pyLower (s : String) : String := String.mk (s.data.map Char.toLower)

/-- `str.upper()`, restricted to ASCII case mapping. -/
def pyUpper (s : String) : String := String.mk (s.data.map Char.toUpper)

/-- The `conv` helper inside `_check`: case conversion.  For a list the
source comprehension `[i.lower() for i in obj if isinstance(i, str)]` keeps
only the string elements. -/
def convStrList (f : String → String) (l : List PyVal) : List PyVal :=
  l.filterMap (fun v => match v with
    | PyVal.str s => some (PyVal.str (f s))
    | _ => Option.none)

/-- `conv(obj, case)` from the source (tenable/base.py lines 136-150). -/
def conv (obj : PyVal) (case : Option String) : PyVal :=
  if case = some "lower" then
    match obj with
    | PyVal.list l => PyVal.list (convStrList pyLower l)
    | PyVal.str s => PyVal.str (pyLower s)
    | v => v
  else if case = some "upper" then
    match obj with
    | PyVal.list l => PyVal.list (convStrList pyUpper l)
    | PyVal.str s => PyVal.str (pyUpper s)
    | v => v
  else obj

/-- The outcome of a `_check` call.  `typeError` / `unexpectedValue` are the
two failure kinds the validator raises deliberately; `pyError` stands for an
incidental Python exception escaping from the implementation (`ValueError`
from `list.index`, `AttributeError` from a missing `__name__`, the builtin
`TypeError` from `isinstance` applied to a non-type). -/
inductive CheckRes where
  | ok (v : PyVal)
  | typeError (msg : String)
  | unexpectedValue (msg : String)
  | pyError (msg : String)
deriving DecidableEq

def indexValueErrorMsg : String := "ValueError: uuid is not in list"

def isinstanceTypeErrorMsg : String := "TypeError: isinstance() arg 2 must be a type"

def dunderNameErrorMsg : String := "AttributeError: object has no attribute __name__"

/-- `list.index` followed by item assignment: replace the first occurrence. -/
def replaceFirst : List EType → EType → EType → List EType
  | [], _, _ => []
  | x :: xs, a, b => if x = a then b :: xs else x :: replaceFirst xs a b

/-- Lines 170-173: a nonempty list is used as `etypes` directly (aliased),
anything else is wrapped in a fresh singleton list.  An empty list gets
wrapped too, so `etypes` then contains the empty list itself, which is not a
type; that case is flagged by `Option.none` and surfaces later as the
builtin `TypeError` from `isinstance`. -/
def resolveEtypes : Expected → Option (List EType)
  | .listed [] => Option.none
  | .listed l => some l
  | .single e => some [e]

/-- Lines 177-183: the sentinel handling.  On `uuid` the first occurrence is
replaced by `str` and the uuid pattern installed.  On `scanner-uuid` the
scanner pattern is installed and then — as written in the source — the list
is searched for `uuid`, not for `scanner-uuid`; when no `uuid` entry is
present `list.index` raises `ValueError` (`Sum.inr` carries the list state
at the raise). -/
def sentinelResolve (es : List EType) (pat : Option RePattern) :
    (List EType × Option RePattern) ⊕ List EType :=
  let p1 :=
    if EType.uuidStr ∈ es then
      (replaceFirst es EType.uuidStr (EType.ty PyType.strT), some RePattern.uuid)
    else (es, pat)
  if EType.scannerUuidStr ∈ p1.1 then
    if EType.uuidStr ∈ p1.1 then
      Sum.inl (replaceFirst p1.1 EType.uuidStr (EType.ty PyType.strT),
        some RePattern.scannerUuid)
    else
      Sum.inr p1.1
  else
    Sum.inl p1

/-- Lines 195-207: the `isinstance` loop.  The loop visits every entry (it
never breaks), so a non-type entry raises the builtin `TypeError` no matter
what was accumulated; `Option.none` flags that. -/
def typePassLoop (v : PyVal) : List EType → Option Bool
  | [] => some false
  | EType.ty t :: rest => (typePassLoop v rest).map (fun b => pyIsInstance v t || b)
  | _ :: _ => Option.none

/-- Lines 213-224: the choices check.  For a list value every element must
be a member of `choices`; for a scalar the value itself must be. -/
def choiceViolation (obj choices : PyVal) : Bool :=
  match obj, choices with
  | PyVal.list items, PyVal.list cl => items.any (fun it => !(pyIn it cl))
  | PyVal.list _, _ => false
  | v, PyVal.list cl => !(pyIn v cl)
  | _, _ => false

def typeErrMsg (name : String) (obj : PyVal) (en : String) : String :=
  name ++ " is of type " ++ (PyVal.typeOf obj).pyName ++ ".  Expected " ++ en ++ "."

def choiceMsg (name : String) (obj choices : PyVal) : String :=
  name ++ " has value of " ++ pyStr obj ++ ".  Expected one of " ++
    (match choices with
     | PyVal.list cl => String.intercalate "," (cl.map pyStr)
     | _ => "")

def patternMsg (name : String) (s : String) (p : RePattern) : String :=
  name ++ " has value of " ++ s ++ ".  Does not match pattern " ++ p.literal

/-- `expected_type.__name__`, evaluated while building the type-mismatch
message (line 206).  Only a type object has a `__name__`; a list or a
sentinel string does not, so those evaluate to `AttributeError`
(`Option.none`). -/
def expectedDunderName : Expected → Option String
  | .single (EType.ty t) => some t.pyName
  | _ => Option.none

/-- The type, choices and pattern checks of `_check` (lines 195-236): the
part after the sentinel handling, operating on the final `etypes` list `es`
(which it no longer modifies). -/
def checkTail (name : String) (obj choices : PyVal) (pat : Option RePattern)
    (ename : Option String) (es : List EType) : CheckRes × List EType :=
  match typePassLoop obj es with
  | Option.none => (CheckRes.pyError isinstanceTypeErrorMsg, es)
  | some tp =>
    if tp then
      if choiceViolation obj choices then
        (CheckRes.unexpectedValue (choiceMsg name obj choices), es)
      else
        match pat, obj with
        | some p, PyVal.str s =>
          if RePattern.hasMatch p s then (CheckRes.ok obj, es)
          else (CheckRes.unexpectedValue (patternMsg name s p), es)
        | _, _ => (CheckRes.ok obj, es)
    else
      (match ename with
       | some en => CheckRes.typeError (typeErrMsg name obj en)
       | Option.none => CheckRes.pyError dunderNameErrorMsg, es)

/-- The body of `_check` after the absent-value early return, operating on
the resolved `etypes` list.  Returns the outcome together with the final
state of `etypes`. -/
def checkCore (name : String) (obj choices : PyVal) (pat0 : Option RePattern)
    (ename : Option String) (es0 : List EType) : CheckRes × List EType :=
  match sentinelResolve es0 pat0 with
  | Sum.inr esErr => (CheckRes.pyError indexValueErrorMsg, esErr)
  | Sum.inl (es, pat) => checkTail name obj choices pat ename es

/-- How the caller-visible `expected_type` argument looks after the call:
only a nonempty list is aliased by `etypes` and hence sees its updates. -/
def afterExp (orig : Expected) (es : List EType) : Expected :=
  match orig with
  | .listed (_ :: _) => .listed es
  | e => e

/-- `APIEndpoint._check` (tenable/base.py lines 102-236).  The second
component of the result is the caller's `expected_type` argument after the
call, recording any in-place mutation. -/
def check (name : String) (obj0 : PyVal) (expected : Expected)
    (choices0 dflt0 : PyVal) (case : Option String) (pat0 : Option RePattern) :
    CheckRes × Expected :=
  let obj := conv obj0 case
  let choices := conv choices0 case
  let dflt := conv dflt0 case
  match obj with
  | PyVal.none =>
    -- `if obj == None:` — only `None` compares equal to `None`.
    -- `if default:` tests truthiness, so a falsy default is not returned.
    (if dflt.truthy then CheckRes.ok dflt else CheckRes.ok PyVal.none, expected)
  | objV =>
    match resolveEtypes expected with
    | Option.none => (CheckRes.pyError isinstanceTypeErrorMsg, expected)
    | some es0 =>
      let r := checkCore name objV choices pat0 (expectedDunderName expected) es0
      (r.1, afterExp expected r.2)

/-! ## The session: `APISession` (tenable/base.py lines 249-485) -/

/-- The part of an HTTP response the session inspects. -/
structure Response where
  status : Nat
  body : String
deriving DecidableEq, Repr

/-- Outcome of `APISession._request`: the returned response on success, or
one of the typed failures, each carrying the response. -/
inductive RequestResult where
  | success (r : Response)
  | invalidInput (r : Response)
  | permissionDenied (r : Response)
  | notFound (r : Response)
  | serverError (r : Response)
  | unknownError (r : Response)
deriving DecidableEq, Repr

/-- `APISession._resp_error_check`: the overridable response hook, identity
by default (lines 321-325). -/
def respErrorCheck (r : Response) : Response := r

/-- The underlying transport: method and full URL to the final response
(retries happen inside it and are invisible here). -/
def Transport : Type := String → String → Response

/-- The status dispatch of `APISession._request` (lines 333-347). -/
def classify (resp : Response) : RequestResult :=
  if resp.status = 200 then RequestResult.success (respErrorCheck resp)
  else if resp.status = 400 then RequestResult.invalidInput resp
  else if resp.status = 403 then RequestResult.permissionDenied resp
  else if resp.status = 404 then RequestResult.notFound resp
  else if resp.status = 500 then RequestResult.serverError resp
  else RequestResult.unknownError resp

namespace APISession

/-- `APISession._request` (lines 327-347): build the URL, invoke the
transport, classify the response by its status code. -/
def request (t : Transport) (url method path : String) : RequestResult :=
  classify (t method (url ++ "/" ++ path))

/-- `APISession.get` (lines 349-370). -/
def get (t : Transport) (url path : String) : RequestResult := request t url "GET" path

/-- `APISession.post` (lines 372-393). -/
def post (t : Transport) (url path : String) : RequestResult := request t url "POST" path

/-- `APISession.put` (lines 395-416). -/
def put (t : Transport) (url path : String) : RequestResult := request t url "PUT" path

/-- `APISession.patch` (lines 418-439). -/
def patch (t : Transport) (url path : String) : RequestResult := request t url "PATCH" path

/-- `APISession.delete` (lines 441-462). -/
def delete (t : Transport) (url path : String) : RequestResult := request t url "DELETE" path

/-- `APISession.head` (lines 464-485). -/
def head (t : Transport) (url path : String) : RequestResult := request t url "HEAD" path

end APISession

/-- The constructor-settable attributes of `APISession` (class defaults:
`URL = None`, `RETRIES = 5`, `RETRY_BACKOFF = 0.2`). -/
structure APISessionCfg where
  URL : PyVal
  RETRIES : PyVal
  RETRY_BACKOFF : PyVal
deriving DecidableEq

/-- `APISession.__init__` (lines 290-297): each setting is adopted only if
it is truthy and of the expected type (`if retries and isinstance(retries,
int)`, `if backoff and isinstance(backoff, float)`). -/
def sessionInit (url retries backoff : PyVal) : APISessionCfg :=
  let c0 : APISessionCfg :=
    { URL := PyVal.none, RETRIES := PyVal.int 5, RETRY_BACKOFF := PyVal.float 2 10 }
  let c1 := if url.truthy then { c0 with URL := url } else c0
  let c2 :=
    if retries.truthy && pyIsInstance retries PyType.intT then { c1 with RETRIES := retries }
    else c1
  if backoff.truthy && pyIsInstance backoff PyType.floatT then
    { c2 with RETRY_BACKOFF := backoff }
  else c2

/-! ## The paginated iterator: `APIResultsIterator` (tenable/base.py lines
10-83) with the page fetch of `TIOIterator._get_page`
(tenable/tenable_io/base.py lines 73-95) -/

/-- The mutable state of an iterator instance. -/
structure IterState (α : Type) where
  count : Nat
  page_count : Nat
  total : Nat
  page : List α
  limit : Nat
  offset : Nat
  pages_total : Option Nat
  pages_requested : Nat
deriving DecidableEq, Repr

/-- A server answering a page request made at a given offset with a given
limit: the records of the page plus the reported total (the two fields
`TIOIterator._get_page` reads out of `_get_data`'s response). -/
def PageServer (α : Type) : Type := Nat → Nat → List α × Nat

/-- `if self._pages_total and self._pages_requested >= self._pages_total:`
— Python truthiness makes both `None` and `0` mean that no cap applies. -/
def capBlocked {α : Type} (s : IterState α) : Bool :=
  match s.pages_total with
  | Option.none => false
  | some n => decide (n ≠ 0) && decide (n ≤ s.pages_requested)

/-- `TIOIterator._get_page` (tenable_io/base.py lines 73-95).  `Option.none`
is the `StopIteration` raised at the page cap; otherwise the data call is
made at the current offset, then `page_count` resets, `pages_requested` and
`offset` advance, and `page`/`total` take the fresh server values. -/
def getPage {α : Type} (srv : PageServer α) (s : IterState α) : Option (IterState α) :=
  if capBlocked s then Option.none
  else
    let r := srv s.offset s.limit
    some { s with
      page_count := 0
      pages_requested := s.pages_requested + 1
      offset := s.offset + s.limit
      page := r.1
      total := r.2 }

/-- Outcome of one `next()` call: a record, `StopIteration`, or the
`IndexError` from `self.page[self.page_count]`; each carries the state the
instance is left in. -/
inductive NextResult (α : Type) where
  | item (a : α) (s : IterState α)
  | stop (s : IterState α)
  | indexError (s : IterState α)
deriving DecidableEq

/-- `item = self.page[self.page_count]` followed by the two counter
increments (lines 80-83); an out-of-range index raises `IndexError`. -/
def getItem {α : Type} (s : IterState α) : NextResult α :=
  match s.page[s.page_count]? with
  | some a => NextResult.item a { s with count := s.count + 1, page_count := s.page_count + 1 }
  | Option.none => NextResult.indexError s

/-- `APIResultsIterator.next` (tenable/base.py lines 63-83). -/
def next {α : Type} (srv : PageServer α) (s : IterState α) : NextResult α :=
  if s.total ≤ s.count then NextResult.stop s
  else if s.page.length ≤ s.page_count ∧ s.count ≤ s.total then
    match getPage srv s with
    | Option.none => NextResult.stop s
    | some t => getItem t
  else getItem s

/-- The field values `APIResultsIterator.__init__` starts from: the class
attribute defaults plus the keyword-supplied limit, offset and page cap. -/
def mkInit {α : Type} (limit offset : Nat) (cap : Option Nat) : IterState α :=
  { count := 0, page_count := 0, total := 0, page := [], limit := limit,
    offset := offset, pages_total := cap, pages_requested := 0 }

/-- `APIResultsIterator.__init__` (lines 49-52): store the settings, then
eagerly fetch the first page. -/
def iterInit {α : Type} (srv : PageServer α) (limit offset : Nat) (cap : Option Nat) :
    Option (IterState α) :=
  getPage srv (mkInit limit offset cap)

/-- How a full iteration ended: normal exhaustion (`StopIteration`) or the
`IndexError` escape. -/
inductive RunEnd where
  | exhausted
  | indexErr
deriving DecidableEq, Repr

/-- Drive the iterator with `next` until it signals, collecting the yielded
records (fuel-bounded to stay total; fuel `Option.none` in the third slot
means the fuel ran out before the iterator signalled). -/
def run {α : Type} (srv : PageServer α) : Nat → IterState α → List α × IterState α × Option RunEnd
  | 0, s => ([], s, Option.none)
  | fuel + 1, s =>
    match next srv s with
    | NextResult.stop t => ([], t, some RunEnd.exhausted)
    | NextResult.indexError t => ([], t, some RunEnd.indexErr)
    | NextResult.item a t =>
      let r := run srv fuel t
      (a :: r.1, r.2.1, r.2.2)

/-- The state the iterator instance is left in after a `next()` call. -/
def NextResult.state {α : Type} : NextResult α → IterState α
  | NextResult.item _ t => t
  | NextResult.stop t => t
  | NextResult.indexError t => t

/-- The state transition of one `next()` call, forgetting the yielded
record. -/
def stepState {α : Type} (srv : PageServer α) (s : IterState α) : IterState α :=
  (next srv s).state

/-- A server holding 25 records, answering each page request with the next
at-most-`limit` records in order and reporting `total = 25`. -/
def srv25 : PageServer Nat := fun offset limit => (((List.range 25).drop offset).take limit, 25)

/-- The state of an iterator over `srv25` (limit 10, initial offset 0, no
page cap) right after construction. -/
def s0w : IterState Nat :=
  { count := 0, page_count := 0, total := 25, page := List.range 10, limit := 10,
    offset := 10, pages_total := Option.none, pages_requested := 1 }

/-- A server that reports `total = 25` but returns an empty page. -/
def srvEmpty : PageServer Nat := fun _ _ => ([], 25)

/-- An iterator state over `srvEmpty` right after its constructor fetch:
an empty page in hand with the reported total still 25. -/
def sShort : IterState Nat :=
  { count := 0, page_count := 0, total := 25, page := [], limit := 10, offset := 0,
    pages_total := Option.none, pages_requested := 1 }

/-- The length of a Python list value, if the value is a list. -/
def pyListLen : PyVal → Option Nat
  | PyVal.list l => some l.length
  | _ => Option.none

/-- `isinstance(v, str)` as a predicate on elements. -/
def isStrB : PyVal → Bool
  | PyVal.str _ => true
  | _ => false

/-! ## Theorems -/

/-- Helper: `classify` yields `success` exactly at status 200, and then only
the hook-processed response. -/
lemma classify_success_iff (resp : Response) (r : Response) :
    classify resp = RequestResult.success r ↔
      (resp.status = 200 ∧ r = respErrorCheck resp) := by
  unfold classify
  by_cases h1 : resp.status = 200
  · simp [h1, eq_comm]
  · rw [if_neg h1]
    simp only [h1, false_and, iff_false]
    split
    · exact fun h => RequestResult.noConfusion h
    · split
      · exact fun h => RequestResult.noConfusion h
      · split
        · exact fun h => RequestResult.noConfusion h
        · split
          · exact fun h => RequestResult.noConfusion h
          · exact fun h => RequestResult.noConfusion h

/-- C1: every Session verb method (GET, POST, PUT, PATCH, DELETE, HEAD)
classifies its transport response purely by status code: 200 returns the
response through the overridable hook (identity by default), 400 raises the
invalid-input failure, 403 permission-denied, 404 not-found, 500
server-error, any other status the generic unknown failure, each failure
carrying the response; and no status other than 200 is classified as
success. -/
theorem request_status_classification (t : Transport) (url path : String) :
    (APISession.get t url path = classify (t "GET" (url ++ "/" ++ path)) ∧
     APISession.post t url path = classify (t "POST" (url ++ "/" ++ path)) ∧
     APISession.put t url path = classify (t "PUT" (url ++ "/" ++ path)) ∧
     APISession.patch t url path = classify (t "PATCH" (url ++ "/" ++ path)) ∧
     APISession.delete t url path = classify (t "DELETE" (url ++ "/" ++ path)) ∧
     APISession.head t url path = classify (t "HEAD" (url ++ "/" ++ path))) ∧
    (∀ resp : Response,
      (resp.status = 200 → classify resp = RequestResult.success (respErrorCheck resp)) ∧
      (resp.status = 400 → classify resp = RequestResult.invalidInput resp) ∧
      (resp.status = 403 → classify resp = RequestResult.permissionDenied resp) ∧
      (resp.status = 404 → classify resp = RequestResult.notFound resp) ∧
      (resp.status = 500 → classify resp = RequestResult.serverError resp) ∧
      (resp.status ∉ ([200, 400, 403, 404, 500] : List Nat) →
        classify resp = RequestResult.unknownError resp) ∧
      (∀ r, classify resp = RequestResult.success r →
        resp.status = 200 ∧ r = respErrorCheck resp)) := by
  refine ⟨⟨rfl, rfl, rfl, rfl, rfl, rfl⟩, fun resp => ⟨?_, ?_, ?_, ?_, ?_, ?_, ?_⟩⟩
  · intro h; simp [classify, h]
  · intro h; simp [classify, h]
  · intro h; simp [classify, h]
  · intro h; simp [classify, h]
  · intro h; simp [classify, h]
  · intro h
    simp only [List.mem_cons, List.not_mem_nil, or_false, not_or] at h
    obtain ⟨h1, h2, h3, h4, h5⟩ := h
    simp [classify, h1, h2, h3, h4, h5]
  · intro r hr
    exact (classify_success_iff resp r).mp hr

/-- Witness for C1 at a concrete 404 response. -/
theorem request_status_classification_witness :
    classify { status := 404, body := "nf" } =
      RequestResult.notFound { status := 404, body := "nf" } :=
  ((request_status_classification (fun _ _ => { status := 404, body := "nf" })
      "https://cloud.tenable.com" "scanners").2
    { status := 404, body := "nf" }).2.2.2.1 rfl

/-- C9 fails on the code: a caller-supplied `retries = 0` or `backoff = 0.0`
does not take effect, because `__init__` guards each assignment with the
truthiness test `if retries and ...` / `if backoff and ...`. -/
theorem session_zero_settings_counterexample :
    (sessionInit PyVal.none (PyVal.int 0) (PyVal.float 0 1)).RETRIES ≠ PyVal.int 0 ∧
    (sessionInit PyVal.none (PyVal.int 0) (PyVal.float 0 1)).RETRY_BACKOFF
      ≠ PyVal.float 0 1 := by
  decide

/-- C9 (amended): a caller-supplied setting takes effect exactly when it is
present, of the right type, and truthy; absent, wrongly typed, or zero
values fall back to the class defaults (retries 5, backoff 0.2). -/
theorem session_settings (url b r : PyVal) :
    (∀ n : Int, n ≠ 0 → (sessionInit url (PyVal.int n) b).RETRIES = PyVal.int n) ∧
    ((sessionInit url PyVal.none b).RETRIES = PyVal.int 5) ∧
    ((sessionInit url (PyVal.int 0) b).RETRIES = PyVal.int 5) ∧
    (∀ s : String, (sessionInit url (PyVal.str s) b).RETRIES = PyVal.int 5) ∧
    (∀ m : Int, ∀ d : Nat, m ≠ 0 →
      (sessionInit url r (PyVal.float m d)).RETRY_BACKOFF = PyVal.float m d) ∧
    ((sessionInit url r PyVal.none).RETRY_BACKOFF = PyVal.float 2 10) ∧
    (∀ d : Nat, (sessionInit url r (PyVal.float 0 d)).RETRY_BACKOFF = PyVal.float 2 10) ∧
    (∀ n : Int, (sessionInit url r (PyVal.int n)).RETRY_BACKOFF = PyVal.float 2 10) := by
  refine ⟨?_, ?_, ?_, ?_, ?_, ?_, ?_, ?_⟩
  · intro n hn
    simp [sessionInit, PyVal.truthy, pyIsInstance, PyVal.typeOf, hn,
      apply_ite APISessionCfg.RETRIES]
  · simp [sessionInit, PyVal.truthy, pyIsInstance, PyVal.typeOf,
      apply_ite APISessionCfg.RETRIES]
  · simp [sessionInit, PyVal.truthy, pyIsInstance, PyVal.typeOf,
      apply_ite APISessionCfg.RETRIES]
  · intro s
    simp [sessionInit, PyVal.truthy, pyIsInstance, PyVal.typeOf,
      apply_ite APISessionCfg.RETRIES]
  · intro m d hm
    simp [sessionInit, PyVal.truthy, pyIsInstance, PyVal.typeOf, hm,
      apply_ite APISessionCfg.RETRY_BACKOFF]
  · simp [sessionInit, PyVal.truthy, pyIsInstance, PyVal.typeOf,
      apply_ite APISessionCfg.RETRY_BACKOFF]
  · intro d
    simp [sessionInit, PyVal.truthy, pyIsInstance, PyVal.typeOf,
      apply_ite APISessionCfg.RETRY_BACKOFF]
  · intro n
    simp [sessionInit, PyVal.truthy, pyIsInstance, PyVal.typeOf,
      apply_ite APISessionCfg.RETRY_BACKOFF]

/-- Witness for C9 (amended) at retries 7 and backoff one half. -/
theorem session_settings_witness :
    (sessionInit PyVal.none (PyVal.int 7) (PyVal.float 1 2)).RETRIES = PyVal.int 7 ∧
    (sessionInit PyVal.none (PyVal.int 7) (PyVal.float 1 2)).RETRY_BACKOFF
      = PyVal.float 1 2 :=
  ⟨(session_settings PyVal.none (PyVal.float 1 2) (PyVal.int 7)).1 7 (by decide),
   (session_settings PyVal.none (PyVal.float 1 2) (PyVal.int 7)).2.2.2.2.1 1 2 (by decide)⟩

/-- C3: the claim is right and the code is wrong.  For an absent value with
a falsy supplied default (the empty string, zero, ...) the validator
returns the absent marker instead of the default, because the source guards
the return with `if default:` (truthiness) rather than testing whether a
default was supplied; its docstring and callers (such as
`exclusions.create` passing an empty-string default) expect the default
back.  A truthy default is returned as documented (third conjunct). -/
theorem check_falsy_default_returns_none :
    ((check "description" PyVal.none (Expected.single (EType.ty PyType.strT))
        PyVal.none (PyVal.str "") Option.none Option.none).1 = CheckRes.ok PyVal.none) ∧
    ((check "interval" PyVal.none (Expected.single (EType.ty PyType.intT))
        PyVal.none (PyVal.int 0) Option.none Option.none).1 = CheckRes.ok PyVal.none) ∧
    ((check "interval" PyVal.none (Expected.single (EType.ty PyType.intT))
        PyVal.none (PyVal.int 1) Option.none Option.none).1 = CheckRes.ok (PyVal.int 1)) := by
  decide

/-- C5: the claim is right and the code is wrong.  Validating against the
`scanner-uuid` sentinel always raises `ValueError`, because the
`scanner-uuid` branch runs `etypes[etypes.index(`uuid`)] = str` — looking up
`uuid`, which is not in the list.  The adjacent generic `uuid` branch works
as specified (second conjunct), showing the intended degradation to a text
type plus pattern. -/
theorem scanner_uuid_check_value_error :
    ((check "scan_uuid" (PyVal.str "00000000-0000-0000-0000-000000000000")
        (Expected.single EType.scannerUuidStr) PyVal.none PyVal.none Option.none
        Option.none).1 = CheckRes.pyError indexValueErrorMsg) ∧
    ((check "uuid" (PyVal.str "00000000-0000-0000-0000-000000000000")
        (Expected.single EType.uuidStr) PyVal.none PyVal.none Option.none
        Option.none).1 = CheckRes.ok (PyVal.str "00000000-0000-0000-0000-000000000000")) ∧
    ((check "uuid" (PyVal.str "not-a-uuid")
        (Expected.single EType.uuidStr) PyVal.none PyVal.none Option.none
        Option.none).1
      = CheckRes.unexpectedValue (patternMsg "uuid" "not-a-uuid" RePattern.uuid)) := by
  decide

/-- C7: the claim is right and the code is wrong.  When `expected_type` is a
list of types and the value matches none of them, building the
type-mismatch message evaluates `expected_type.__name__` on a list, which
raises `AttributeError` instead of the intended `TypeError`.  With a single
expected type the intended type-mismatch failure is raised, naming the
field, the actual type and the expected type (second conjunct). -/
theorem list_expected_type_attribute_error :
    ((check "x" (PyVal.int 1)
        (Expected.listed [EType.ty PyType.strT, EType.ty PyType.listT])
        PyVal.none PyVal.none Option.none Option.none).1
      = CheckRes.pyError dunderNameErrorMsg) ∧
    ((check "x" (PyVal.str "nope") (Expected.single (EType.ty PyType.intT))
        PyVal.none PyVal.none Option.none Option.none).1
      = CheckRes.typeError "x is of type str.  Expected int.") := by
  decide

/-- C2: over a server reporting total 25 with page-size limit 10, the
iterator performs exactly 3 page fetches (the first at construction) and
yields exactly the 25 records in page order before raising StopIteration;
with a page cap of 1 it stops after the 10 records of the first page even
though the reported total is 25. -/
theorem iterator_pagination_total25_limit10 :
    (((iterInit srv25 10 0 Option.none).map (fun s0 =>
        ((run srv25 40 s0).1, (run srv25 40 s0).2.1.pages_requested,
          (run srv25 40 s0).2.2)))
      = some (List.range 25, 3, some RunEnd.exhausted)) ∧
    (((iterInit srv25 10 0 (some 1)).map (fun s0 =>
        ((run srv25 40 s0).1, (run srv25 40 s0).2.1.pages_requested,
          (run srv25 40 s0).2.2)))
      = some (List.range 10, 1, some RunEnd.exhausted)) := by
  decide

/-- C6 fails on the code: the case-normalization helper drops non-string
elements of a list instead of passing them through, so the result can be
shorter than the input. -/
theorem conv_drops_nonstring_counterexample :
    (conv (PyVal.list [PyVal.str "A", PyVal.int 1]) (some "lower")
      = PyVal.list [PyVal.str "a"]) ∧
    (pyListLen (conv (PyVal.list [PyVal.str "A", PyVal.int 1]) (some "lower")) = some 1) ∧
    (pyListLen (PyVal.list [PyVal.str "A", PyVal.int 1]) = some 2) ∧ (1 : Nat) ≠ 2 := by
  decide

/-- Helper: the comprehension keeps exactly the string elements, so its
length is the number of string elements of the input. -/
lemma convStrList_length (f : String → String) (l : List PyVal) :
    (convStrList f l).length = l.countP isStrB := by
  induction l with
  | nil => rfl
  | cons x xs ih =>
    cases x <;> simp [convStrList, isStrB, List.countP_cons, ih] <;>
      simp [convStrList] at ih <;> omega

/-- C6 (amended): a case-normalization directive applied to a list converts
the string elements and removes the non-string elements (rather than
passing them through), preserving the relative order of the string
elements; the result's length is the number of string elements of the
input. -/
theorem conv_list_case_normalization (l : List PyVal) (c : String)
    (h : c = "lower" ∨ c = "upper") :
    (conv (PyVal.list l) (some c)
      = PyVal.list (l.filterMap (fun v => match v with
          | PyVal.str s => some (PyVal.str (if c = "lower" then pyLower s else pyUpper s))
          | _ => Option.none))) ∧
    (pyListLen (conv (PyVal.list l) (some c)) = some (l.countP isStrB)) := by
  rcases h with h | h <;> subst h
  · refine ⟨by simp [conv, convStrList], ?_⟩
    simp [conv, pyListLen, convStrList_length]
  · have hne : ¬ ((some "upper" : Option String) = some "lower") := by decide
    refine ⟨?_, ?_⟩
    · simp only [conv, if_neg hne, if_pos rfl]
      simp [convStrList]
    · simp only [conv, if_neg hne, if_pos rfl]
      simp [pyListLen, convStrList_length]

/-- Witness for C6 (amended) on a mixed string and integer list. -/
theorem conv_list_case_normalization_witness :
    (conv (PyVal.list [PyVal.str "A", PyVal.int 1]) (some "lower")
      = PyVal.list ([PyVal.str "A", PyVal.int 1].filterMap (fun v => match v with
          | PyVal.str s => some (PyVal.str (if "lower" = "lower" then pyLower s else pyUpper s))
          | _ => Option.none))) ∧
    (pyListLen (conv (PyVal.list [PyVal.str "A", PyVal.int 1]) (some "lower"))
      = some ([PyVal.str "A", PyVal.int 1].countP isStrB)) :=
  conv_list_case_normalization [PyVal.str "A", PyVal.int 1] "lower" (Or.inl rfl)

/-- Helper: replacing occurrences of `a` by `b` does not affect membership
of a third element. -/
lemma mem_replaceFirst_iff {l : List EType} {a b c : EType} (h1 : c ≠ a) (h2 : c ≠ b) :
    c ∈ replaceFirst l a b ↔ c ∈ l := by
  induction l with
  | nil => simp [replaceFirst]
  | cons x xs ih =>
    by_cases hx : x = a
    · subst hx
      simp [replaceFirst, h1, h2]
    · simp [replaceFirst, hx, ih]

/-- Helper: without sentinel entries the sentinel handling is the
identity. -/
lemma sentinelResolve_no_sentinel {es : List EType} (pat : Option RePattern)
    (hu : EType.uuidStr ∉ es) (hs : EType.scannerUuidStr ∉ es) :
    sentinelResolve es pat = Sum.inl (es, pat) := by
  unfold sentinelResolve
  simp [hu, hs]

/-- Helper: with `uuid` present and `scanner-uuid` absent, the sentinel
handling replaces the first `uuid` entry by the string type and installs
the uuid pattern. -/
lemma sentinelResolve_uuid_only {es : List EType} (pat : Option RePattern)
    (hu : EType.uuidStr ∈ es) (hs : EType.scannerUuidStr ∉ es) :
    sentinelResolve es pat
      = Sum.inl (replaceFirst es EType.uuidStr (EType.ty PyType.strT),
          some RePattern.uuid) := by
  unfold sentinelResolve
  have hs2 : EType.scannerUuidStr ∉ replaceFirst es EType.uuidStr (EType.ty PyType.strT) := by
    rw [mem_replaceFirst_iff (by decide) (by decide)]
    exact hs
  simp [hu, hs2]

/-- Helper: the checks after the sentinel handling never modify `etypes`. -/
lemma checkTail_snd (name : String) (obj choices : PyVal) (pat : Option RePattern)
    (ename : Option String) (es : List EType) :
    (checkTail name obj choices pat ename es).2 = es := by
  unfold checkTail
  rcases htp : typePassLoop obj es with _ | tp
  · rfl
  · simp only
    repeat' split
    all_goals rfl

/-- Helper: without sentinel entries the whole body leaves `etypes`
untouched. -/
lemma checkCore_snd_no_sentinel (name : String) (obj choices : PyVal)
    (pat0 : Option RePattern) (ename : Option String) {es0 : List EType}
    (hu : EType.uuidStr ∉ es0) (hs : EType.scannerUuidStr ∉ es0) :
    (checkCore name obj choices pat0 ename es0).2 = es0 := by
  unfold checkCore
  rw [sentinelResolve_no_sentinel pat0 hu hs]
  exact checkTail_snd name obj choices pat0 ename es0

/-- Helper: with a `uuid` entry (and no `scanner-uuid`) the body's only
update of `etypes` is the in-place sentinel replacement. -/
lemma checkCore_snd_uuid (name : String) (obj choices : PyVal)
    (pat0 : Option RePattern) (ename : Option String) {es0 : List EType}
    (hu : EType.uuidStr ∈ es0) (hs : EType.scannerUuidStr ∉ es0) :
    (checkCore name obj choices pat0 ename es0).2
      = replaceFirst es0 EType.uuidStr (EType.ty PyType.strT) := by
  unfold checkCore
  rw [sentinelResolve_uuid_only pat0 hu hs]
  exact checkTail_snd name obj choices (some RePattern.uuid) ename _

/-- C4 fails on the code: a caller-supplied `expected_type` list containing
the `uuid` sentinel is mutated in place — the sentinel entry is replaced by
the string type — because `etypes = expected_type` aliases the caller's
list and the sentinel handling assigns into it. -/
theorem check_mutates_expected_list_counterexample :
    (check "scanner_id" (PyVal.str "00000000-0000-0000-0000-000000000000")
        (Expected.listed [EType.uuidStr, EType.ty PyType.intT]) PyVal.none PyVal.none
        Option.none Option.none).2
      ≠ Expected.listed [EType.uuidStr, EType.ty PyType.intT] := by
  decide

/-- C4 (amended): the validator mutates no caller-supplied argument, except
that an `expected_type` supplied as a list containing a symbolic identifier
entry is updated in place (the first `uuid` entry replaced by the string
type).  A single non-list expected type is never mutated, and an
expected-type list free of symbolic entries — for example one containing
the string type — is unchanged after the call returns or raises. -/
theorem check_expected_type_mutation (name : String) (obj choices dflt : PyVal)
    (case : Option String) (pat : Option RePattern) :
    (∀ e : EType, (check name obj (Expected.single e) choices dflt case pat).2
        = Expected.single e) ∧
    (∀ l : List EType, EType.uuidStr ∉ l → EType.scannerUuidStr ∉ l →
      (check name obj (Expected.listed l) choices dflt case pat).2 = Expected.listed l) ∧
    (∀ l : List EType, EType.uuidStr ∈ l → EType.scannerUuidStr ∉ l →
      conv obj case ≠ PyVal.none →
      (check name obj (Expected.listed l) choices dflt case pat).2
        = Expected.listed (replaceFirst l EType.uuidStr (EType.ty PyType.strT))) := by
  refine ⟨?_, ?_, ?_⟩
  · intro e
    simp only [check]
    cases hobj : conv obj case <;> simp [hobj, resolveEtypes, afterExp]
  · intro l hu hs
    rcases l with _ | ⟨x, xs⟩
    · simp only [check]
      cases hobj : conv obj case <;> simp [hobj, resolveEtypes, afterExp]
    · simp only [check]
      cases hobj : conv obj case <;>
        simp [hobj, resolveEtypes, afterExp,
          checkCore_snd_no_sentinel name _ _ pat
            (expectedDunderName (Expected.listed (x :: xs))) hu hs]
  · intro l hu hs hne
    rcases l with _ | ⟨x, xs⟩
    · cases hu
    · simp only [check]
      cases hobj : conv obj case
      · exact absurd hobj hne
      all_goals
        simp [hobj, resolveEtypes, afterExp, checkCore_snd_uuid name _ _ pat
          (expectedDunderName (Expected.listed (x :: xs))) hu hs]

/-- Witness for C4 (amended): a list holding just the string type is
unchanged by a successful validation. -/
theorem check_expected_type_mutation_witness :
    (check "x" (PyVal.str "s") (Expected.listed [EType.ty PyType.strT])
        PyVal.none PyVal.none Option.none Option.none).2
      = Expected.listed [EType.ty PyType.strT] :=
  (check_expected_type_mutation "x" (PyVal.str "s") PyVal.none PyVal.none Option.none
    Option.none).2.1 [EType.ty PyType.strT] (by decide) (by decide)

/-- Helper: a successful page fetch keeps the limit, advances the offset by
exactly the limit and counts one more requested page. -/
lemma getPage_some_spec {α : Type} (srv : PageServer α) (s t : IterState α)
    (h : getPage srv s = some t) :
    t.limit = s.limit ∧ t.offset = s.offset + s.limit ∧
      t.pages_requested = s.pages_requested + 1 := by
  unfold getPage at h
  split at h
  · exact absurd h (by simp)
  · injection h with h1
    subst h1
    exact ⟨rfl, rfl, rfl⟩

/-- Helper: `getItem` only moves the cursor and the count; limit, offset and
the page counter are untouched. -/
lemma getItem_state_fields {α : Type} (s : IterState α) :
    (getItem s).state.limit = s.limit ∧ (getItem s).state.offset = s.offset ∧
      (getItem s).state.pages_requested = s.pages_requested := by
  rcases hpg : s.page[s.page_count]? with _ | a
  · simp [getItem, NextResult.state, hpg]
  · simp [getItem, NextResult.state, hpg]

/-- Helper: one `next()` call either leaves limit, offset and page counter
unchanged, or performs exactly one page fetch, advancing the offset by the
limit. -/
lemma stepState_spec {α : Type} (srv : PageServer α) (s : IterState α) :
    (stepState srv s).limit = s.limit ∧
    (((stepState srv s).offset = s.offset ∧
        (stepState srv s).pages_requested = s.pages_requested) ∨
     ((stepState srv s).offset = s.offset + s.limit ∧
        (stepState srv s).pages_requested = s.pages_requested + 1)) := by
  unfold stepState next
  by_cases hA : s.total ≤ s.count
  · rw [if_pos hA]
    exact ⟨rfl, Or.inl ⟨rfl, rfl⟩⟩
  · rw [if_neg hA]
    by_cases hB : s.page.length ≤ s.page_count ∧ s.count ≤ s.total
    · rw [if_pos hB]
      rcases hg : getPage srv s with _ | t
      · exact ⟨rfl, Or.inl ⟨rfl, rfl⟩⟩
      · obtain ⟨hL, hO, hP⟩ := getPage_some_spec srv s t hg
        obtain ⟨gL, gO, gP⟩ := getItem_state_fields t
        refine ⟨?_, Or.inr ⟨?_, ?_⟩⟩
        · show (getItem t).state.limit = s.limit
          rw [gL, hL]
        · show (getItem t).state.offset = s.offset + s.limit
          rw [gO, hO]
        · show (getItem t).state.pages_requested = s.pages_requested + 1
          rw [gP, hP]
    · rw [if_neg hB]
      obtain ⟨gL, gO, gP⟩ := getItem_state_fields s
      exact ⟨gL, Or.inl ⟨gO, gP⟩⟩

/-- Helper: along any number of `next()` steps from a state whose offset is
the initial offset plus `pages_requested` times the limit, that relation is
preserved and `pages_requested` never decreases. -/
lemma iterate_inv {α : Type} (srv : PageServer α) (limit offset : Nat) (s : IterState α)
    (hL : s.limit = limit) (hO : s.offset = offset + s.pages_requested * limit) (n : Nat) :
    ((stepState srv)^[n] s).limit = limit ∧
    ((stepState srv)^[n] s).offset
      = offset + ((stepState srv)^[n] s).pages_requested * limit ∧
    s.pages_requested ≤ ((stepState srv)^[n] s).pages_requested := by
  induction n with
  | zero => exact ⟨hL, hO, Nat.le_refl _⟩
  | succ n ih =>
    obtain ⟨ihL, ihO, ihP⟩ := ih
    rw [Function.iterate_succ_apply']
    obtain ⟨hsL, hsrest⟩ := stepState_spec srv ((stepState srv)^[n] s)
    rcases hsrest with ⟨ho, hp⟩ | ⟨ho, hp⟩
    · exact ⟨by rw [hsL, ihL], by rw [ho, hp, ihO], by rw [hp]; exact ihP⟩
    · refine ⟨by rw [hsL, ihL], ?_, by rw [hp]; omega⟩
      rw [ho, hp, ihO, ihL]
      ring

/-- C8: starting from the constructor-supplied initial offset, each
successful page fetch advances the offset by exactly the page-size limit,
so a reachable state's offset is the initial offset plus `pages_requested`
times the limit, and the offset never decreases over the iterator's
lifetime. -/
theorem iterator_offset_advance {α : Type} (srv : PageServer α) (limit offset : Nat)
    (cap : Option Nat) (s0 : IterState α)
    (h : iterInit srv limit offset cap = some s0) (n : Nat) :
    ((stepState srv)^[n] s0).offset
      = offset + ((stepState srv)^[n] s0).pages_requested * limit ∧
    (∀ m, m ≤ n →
      ((stepState srv)^[m] s0).offset ≤ ((stepState srv)^[n] s0).offset) := by
  obtain ⟨hL0, hO0, hP0⟩ := getPage_some_spec srv (mkInit limit offset cap) s0 h
  have hL : s0.limit = limit := by rw [hL0]; rfl
  have hO : s0.offset = offset + s0.pages_requested * limit := by
    rw [hO0, hP0]
    simp [mkInit]
  refine ⟨(iterate_inv srv limit offset s0 hL hO n).2.1, ?_⟩
  intro m hm
  obtain ⟨k, hk⟩ := Nat.exists_eq_add_of_le hm
  subst hk
  have hum := iterate_inv srv limit offset s0 hL hO m
  have hker := iterate_inv srv limit offset ((stepState srv)^[m] s0) hum.1 hum.2.1 k
  have hiter : (stepState srv)^[k] ((stepState srv)^[m] s0)
      = (stepState srv)^[m + k] s0 := by
    rw [← Function.iterate_add_apply, Nat.add_comm]
  rw [← hiter, hum.2.1, hker.2.1]
  exact Nat.add_le_add_left (Nat.mul_le_mul_right limit hker.2.2) offset

/-- Witness for C8 on the concrete 25-record server after 12 steps. -/
theorem iterator_offset_advance_witness :
    ((stepState srv25)^[12] s0w).offset
      = 0 + ((stepState srv25)^[12] s0w).pages_requested * 10 :=
  (iterator_offset_advance srv25 10 0 Option.none s0w (by decide) 12).1

/-- C10: when the cumulative count is still below the reported total but the
freshly fetched page is empty, the record access indexes past the end of
the page and fails with IndexError, not with StopIteration. -/
theorem short_page_index_error {α : Type} (srv : PageServer α) (s : IterState α)
    (h1 : s.count < s.total) (h2 : s.page.length ≤ s.page_count)
    (h3 : capBlocked s = false) (h4 : (srv s.offset s.limit).1 = []) :
    next srv s = NextResult.indexError
      { s with
        page_count := 0
        pages_requested := s.pages_requested + 1
        offset := s.offset + s.limit
        page := []
        total := (srv s.offset s.limit).2 } := by
  unfold next
  rw [if_neg (by omega), if_pos ⟨h2, Nat.le_of_lt h1⟩]
  unfold getPage
  rw [if_neg (by simp [h3])]
  unfold getItem
  simp [h4]

/-- Witness for C10: a server that reports 25 records but serves an empty
page drives `next()` into IndexError. -/
theorem short_page_index_error_witness :
    next srvEmpty sShort = NextResult.indexError
      { sShort with
        page_count := 0
        pages_requested := sShort.pages_requested + 1
        offset := sShort.offset + sShort.limit
        page := []
        total := (srvEmpty sShort.offset sShort.limit).2 } :=
  short_page_index_error srvEmpty sShort (by decide) (by decide) (by decide) (by decide)

end Tenable
